import Mathlib

/-!
Shallow embedding of the BumpBox ESP32-CAM capture pipeline
(`src/esp32/bumpbox_camera/src/main.cpp`).

The firmware's observable behaviour (GPIO writes, delays, frame-buffer
acquisitions and releases, the HTTP POST, serial diagnostics, JSON parsing)
is modelled as a trace of `Event`s produced by pure functions that mirror
the C control flow line by line.  External nondeterminism (whether the
sensor returns a frame, whether `ps_malloc` succeeds, the HTTP status code,
the response body and what the JSON library makes of it) is supplied as an
explicit environment (`CamEnv`, `LoopEnv`).
-/

namespace BumpBox

/-! ## Pin and timing constants (main.cpp lines 29-59) -/

def BUTTON_PIN : Nat := 13

def FLASH_LED_PIN : Nat := 4

def STATUS_LED_PIN : Nat := 33

def DEBOUNCE_MS : Nat := 300

def FLASH_WARMUP_MS : Nat := 150

/-! ## The JSON value model (ArduinoJson semantics)

`deserializeJson` itself is the external ArduinoJson library; its output is
modelled as an `Option Json` supplied by the environment (`none` = a
`DeserializationError`).  Key lookup on a non-object yields null (ArduinoJson
returns a null `JsonVariant`), and the `|` default operator returns the value
only when it has exactly the requested type, the default otherwise. -/

inductive Json where
  | null : Json
  | bool (b : Bool) : Json
  | num (n : Int) : Json
  | str (s : String) : Json
  | arr (xs : List Json) : Json
  | obj (fields : List (String × Json)) : Json

def Json.get (j : Json) (key : String) : Json :=
  match j with
  | .obj fields =>
    match fields.find? (fun p => p.1 == key) with
    | some p => p.2
    | none => .null
  | _ => .null

def Json.orBool (j : Json) (d : Bool) : Bool :=
  match j with
  | .bool b => b
  | _ => d

def Json.orStr (j : Json) (d : String) : String :=
  match j with
  | .str s => s
  | _ => d

def Json.orInt (j : Json) (d : Int) : Int :=
  match j with
  | .num n => n
  | _ => d

/-! ## parseResponse (main.cpp lines 183-214) -/

structure DetectionRecord where
  label : String
  category : String
  minPrice : Int
  maxPrice : Int
  confidence : Int
deriving DecidableEq

inductive ParseOutcome where
  | parseFailure (raw : String) : ParseOutcome
  | serverError (msg : String) : ParseOutcome
  | detection (rec : DetectionRecord) : ParseOutcome
deriving DecidableEq

/-- Embedding of `parseResponse`.  `parsed` is what `deserializeJson`
produced from `response` (`none` on a deserialization error).  The C function
only prints; the printed classification of the response is returned as a
`ParseOutcome`. -/
def parseResponse (response : String) (parsed : Option Json) : ParseOutcome :=
  match parsed with
  | none => .parseFailure response
  | some doc =>
    if !((doc.get "success").orBool false) then
      .serverError ((doc.get "error").orStr "Unknown")
    else
      let det := doc.get "detection"
      .detection
        { label := (det.get "label").orStr "Unknown"
          category := (det.get "category").orStr "Unknown"
          minPrice := (det.get "minPrice").orInt 0
          maxPrice := (det.get "maxPrice").orInt 0
          confidence := (det.get "confidence").orInt 0 }

/-! ## Observable events -/

inductive Event where
  | digitalWrite (pin : Nat) (level : Bool) : Event
  | delayMs (ms : Nat) : Event
  | fbGet (ok : Bool) : Event
  | fbReturn : Event
  | sendCall (imageLen : Nat) : Event
  | alloc (ok : Bool) : Event
  | httpPost (body : List Nat) (totalLen : Nat) : Event
  | httpLogServer (code : Int) (body : String) : Event
  | httpLogTransport (code : Int) : Event
  | parseEvt (out : ParseOutcome) : Event
  | wifiCheck (connected : Bool) : Event
  | reconnect : Event

/-! ## LED helpers (main.cpp lines 75-91), as structural recursions
mirroring the C `for` loops (the final loop iteration of `flashLED` skips
the trailing delay). -/

def flashLED : Nat → Nat → List Event
  | 0, _ => []
  | 1, durationMs =>
    [.digitalWrite FLASH_LED_PIN true, .delayMs durationMs,
     .digitalWrite FLASH_LED_PIN false]
  | n + 2, durationMs =>
    [.digitalWrite FLASH_LED_PIN true, .delayMs durationMs,
     .digitalWrite FLASH_LED_PIN false, .delayMs durationMs] ++
    flashLED (n + 1) durationMs

def blinkError : Nat → List Event
  | 0 => []
  | n + 1 =>
    [.digitalWrite STATUS_LED_PIN false, .delayMs 150,
     .digitalWrite STATUS_LED_PIN true, .delayMs 150] ++ blinkError n

/-! ## Multipart body assembly (main.cpp lines 222-244) -/

def boundary : String := "----BumpBoxESP32Boundary"

def bodyStart : String :=
  "--" ++ boundary ++ "\r\n" ++
  "Content-Disposition: form-data; name=\"image\"; filename=\"capture.jpg\"\r\n" ++
  "Content-Type: image/jpeg\r\n\r\n"

def bodyEnd : String := "\r\n--" ++ boundary ++ "--\r\n"

def bodyStartBytes : List Nat := bodyStart.toUTF8.toList.map UInt8.toNat

def bodyEndBytes : List Nat := bodyEnd.toUTF8.toList.map UInt8.toNat

/-- Model of `memcpy(dst + offset, src, n)` on a buffer represented as a
byte list: the `n` bytes of `src` overwrite `dst` starting at `offset`. -/
def memcpy (dst : List Nat) (offset : Nat) (src : List Nat) (n : Nat) : List Nat :=
  dst.take offset ++ src.take n ++ dst.drop (offset + n)

/-- The three-`memcpy` assembly of the multipart body into the freshly
allocated `totalLen`-byte buffer (modelled as zero-initialised), exactly as
in `sendToServer` lines 228-244. -/
def assembleBody (imageData : List Nat) (imageLen : Nat) : List Nat :=
  let totalLen := bodyStartBytes.length + imageLen + bodyEndBytes.length
  let body0 := List.replicate totalLen 0
  let body1 := memcpy body0 0 bodyStartBytes bodyStartBytes.length
  let body2 := memcpy body1 bodyStartBytes.length imageData imageLen
  memcpy body2 (bodyStartBytes.length + imageLen) bodyEndBytes bodyEndBytes.length

/-! ## Environment of one capture invocation -/

structure Frame where
  width : Nat
  height : Nat
  len : Nat
  buf : List Nat

structure CamEnv where
  fb1 : Option Frame
  fb2 : Option Frame
  allocOk : Bool
  httpCode : Int
  respBody : String
  respParsed : Option Json

/-! ## sendToServer (main.cpp lines 218-269) -/

/-- Embedding of `sendToServer`: returns the event trace and the `bool` the
C function returns.  `env.allocOk` models whether `ps_malloc(totalLen)`
succeeds; `env.httpCode` is what `http.POST` returns (non-positive on a
connection/timeout failure); on HTTP 200 the body is read and handed to
`parseResponse`, on any other positive status the status and body are logged
as a server error, and on a non-positive code the transport error string is
logged. -/
def sendToServer (env : CamEnv) (imageData : List Nat) (imageLen : Nat) :
    List Event × Bool :=
  let totalLen := bodyStartBytes.length + imageLen + bodyEndBytes.length
  if env.allocOk then
    let body := assembleBody imageData imageLen
    if env.httpCode = 200 then
      ([.sendCall imageLen, .alloc true, .httpPost body totalLen,
        .parseEvt (parseResponse env.respBody env.respParsed)], true)
    else if 0 < env.httpCode then
      ([.sendCall imageLen, .alloc true, .httpPost body totalLen,
        .httpLogServer env.httpCode env.respBody], false)
    else
      ([.sendCall imageLen, .alloc true, .httpPost body totalLen,
        .httpLogTransport env.httpCode], false)
  else
    ([.sendCall imageLen, .alloc false], false)

/-! ## captureAndSend (main.cpp lines 273-311) -/

inductive Outcome where
  | sensorFailure : Outcome
  | sizeLimitExceeded : Outcome
  | sendFailed : Outcome
  | success : Outcome
deriving DecidableEq

/-- Embedding of `captureAndSend`: flash on, warm-up delay, stale-frame
discard (first `esp_camera_fb_get`, returned immediately when non-null),
second acquisition, flash off, null check, 1 MB size check, `sendToServer`,
frame release, and the success/failure blink.  Returns the trace and the
exit path taken. -/
def captureAndSend (env : CamEnv) : List Event × Outcome :=
  let pre : List Event :=
    [.digitalWrite FLASH_LED_PIN true, .delayMs FLASH_WARMUP_MS]
  let discard : List Event :=
    match env.fb1 with
    | some _ => [.fbGet true, .fbReturn]
    | none => [.fbGet false]
  match env.fb2 with
  | none =>
    (pre ++ discard ++ [.fbGet false, .digitalWrite FLASH_LED_PIN false] ++
     blinkError 5, .sensorFailure)
  | some fb =>
    let got := pre ++ discard ++ [.fbGet true, .digitalWrite FLASH_LED_PIN false]
    if fb.len > 1000000 then
      (got ++ [.fbReturn] ++ blinkError 4, .sizeLimitExceeded)
    else
      let r := sendToServer env fb.buf fb.len
      if r.2 then
        (got ++ r.1 ++ [.fbReturn] ++ flashLED 2 100, .success)
      else
        (got ++ r.1 ++ [.fbReturn] ++ blinkError 5, .sendFailed)

/-! ## loop (main.cpp lines 346-380) -/

/-- Wrap-around of `unsigned long` (32-bit) subtraction `a - b`. -/
def UINT32_MOD : Nat := 4294967296

def wrapSub (a b : Nat) : Nat :=
  (a % UINT32_MOD + (UINT32_MOD - b % UINT32_MOD)) % UINT32_MOD

structure LoopEnv where
  buttonLow : Bool
  millisNow : Nat
  lastButtonPress : Nat
  serialAvail : Bool
  serialCmd : Char
  wifi1 : Bool
  wifi2 : Bool
  camEnv : CamEnv

def buttonTriggered (env : LoopEnv) : Bool :=
  env.buttonLow && decide (wrapSub env.millisNow env.lastButtonPress > DEBOUNCE_MS)

def serialTriggered (env : LoopEnv) : Bool :=
  env.serialAvail && (env.serialCmd == 'c' || env.serialCmd == 'C')

def triggered (env : LoopEnv) : Bool :=
  buttonTriggered env || serialTriggered env

/-- Embedding of one `loop` iteration: on a trigger the WiFi status is read
(first `wifiCheck`); if disconnected, `connectWiFi` is attempted
(`reconnect`); the status is read again (second `wifiCheck`); only when
connected is `captureAndSend` invoked, otherwise three error blinks.
`env.wifi1`/`env.wifi2` are the two status reads. -/
def loopTrace (env : LoopEnv) : List Event :=
  if triggered env then
    [Event.wifiCheck env.wifi1] ++
    (if env.wifi1 then [] else [Event.reconnect]) ++
    [Event.wifiCheck env.wifi2] ++
    (if env.wifi2 then (captureAndSend env.camEnv).1 else blinkError 3) ++
    [Event.delayMs 50]
  else
    [Event.delayMs 50]

/-! ## setup halt loop (main.cpp lines 334-340) -/

/-- The `while (true) { blinkError(3); delay(2000); }` halt loop of `setup`,
observed for `n` iterations: it repeats the visible signal forever and never
exits. -/
def haltLoopTrace : Nat → List Event
  | 0 => []
  | n + 1 => blinkError 3 ++ [Event.delayMs 2000] ++ haltLoopTrace n

/-- The device's whole observable trace after power-on, given whether
`initCamera` succeeds and (when it does) the environments of the successive
`loop` iterations.  On an initialization failure `setup` never returns, so
the trace is the halt loop observed for as many iterations as the horizon
(`loopEnvs.length`) allows, and `loop` never runs. -/
def deviceTrace (camInitOk : Bool) (loopEnvs : List LoopEnv) : List Event :=
  let pinInit : List Event :=
    [Event.digitalWrite FLASH_LED_PIN false, Event.digitalWrite STATUS_LED_PIN true]
  if camInitOk then
    pinInit ++ (loopEnvs.map loopTrace).flatten
  else
    pinInit ++ haltLoopTrace loopEnvs.length

/-! ## Trace observations -/

def isAcquire : Event → Bool
  | .fbGet true => true
  | _ => false

def isRelease : Event → Bool
  | .fbReturn => true
  | _ => false

def isFbGet : Event → Bool
  | .fbGet _ => true
  | _ => false

def isSendCall : Event → Bool
  | .sendCall _ => true
  | _ => false

def isHttpPost : Event → Bool
  | .httpPost _ _ => true
  | _ => false

def isParseEvt : Event → Bool
  | .parseEvt _ => true
  | _ => false

def isWifiCheck : Event → Bool
  | .wifiCheck _ => true
  | _ => false

def isLogServer : Event → Bool
  | .httpLogServer _ _ => true
  | _ => false

def isLogTransport : Event → Bool
  | .httpLogTransport _ => true
  | _ => false

def isStatusWrite : Event → Bool
  | .digitalWrite p _ => p == STATUS_LED_PIN
  | _ => false

/-- State of the flash LED after a trace, starting from `init`. -/
def flashStep (s : Bool) (e : Event) : Bool :=
  match e with
  | .digitalWrite p lvl => if p = FLASH_LED_PIN then lvl else s
  | _ => s

def flashStateAfter (init : Bool) (t : List Event) : Bool :=
  t.foldl flashStep init

/-- The property claimed of the reference `loop`: some frame acquisition
occurs strictly before the first connectivity check in the trace. -/
def acquisitionPrecedesCheck (t : List Event) : Prop :=
  t.findIdx isFbGet < t.findIdx isWifiCheck

/-! ## Concrete test environments -/

def fbBig : Frame := ⟨640, 480, 1000001, []⟩

def envSize : CamEnv := ⟨none, some fbBig, true, 200, "", none⟩

def env404 : CamEnv := ⟨none, none, true, 404, "Not Found", none⟩

def camEnvBasic : CamEnv := ⟨none, none, true, 200, "", none⟩

def cLoopEnv : LoopEnv := ⟨true, 1000, 0, false, 'x', true, true, camEnvBasic⟩

def docFalse : Json := Json.obj [("success", Json.bool false)]

def docTrue : Json :=
  Json.obj [("success", Json.bool true),
            ("detection", Json.obj [("label", Json.str "Mug"), ("minPrice", Json.num 5)])]

def docSuccessOnly : Json := Json.obj [("success", Json.bool true)]

/-! ## Helper lemmas about the LED traces -/

theorem blinkError_countP_eq_zero (p : Event → Bool)
    (h1 : p (Event.digitalWrite STATUS_LED_PIN false) = false)
    (h2 : p (Event.delayMs 150) = false)
    (h3 : p (Event.digitalWrite STATUS_LED_PIN true) = false) :
    ∀ n, (blinkError n).countP p = 0
  | 0 => rfl
  | n + 1 => by
    simp [blinkError, List.countP_append, List.countP_cons, h1, h2, h3,
      blinkError_countP_eq_zero p h1 h2 h3 n]

theorem blinkError_no_acquire (n : Nat) : (blinkError n).countP isAcquire = 0 :=
  blinkError_countP_eq_zero _ rfl rfl rfl n

theorem blinkError_no_release (n : Nat) : (blinkError n).countP isRelease = 0 :=
  blinkError_countP_eq_zero _ rfl rfl rfl n

theorem blinkError_no_sendCall (n : Nat) : (blinkError n).countP isSendCall = 0 :=
  blinkError_countP_eq_zero _ rfl rfl rfl n

theorem blinkError_no_httpPost (n : Nat) : (blinkError n).countP isHttpPost = 0 :=
  blinkError_countP_eq_zero _ rfl rfl rfl n

theorem blinkError_no_parse (n : Nat) : (blinkError n).countP isParseEvt = 0 :=
  blinkError_countP_eq_zero _ rfl rfl rfl n

theorem blinkError_no_fbGet (n : Nat) : (blinkError n).countP isFbGet = 0 :=
  blinkError_countP_eq_zero _ rfl rfl rfl n

theorem blinkError_status_count (n : Nat) :
    (blinkError n).countP isStatusWrite = 2 * n := by
  induction n with
  | zero => rfl
  | succ k ih =>
    simp [blinkError, List.countP_append, List.countP_cons, isStatusWrite, ih,
      STATUS_LED_PIN]
    omega

theorem haltLoopTrace_countP_eq_zero (p : Event → Bool)
    (h1 : p (Event.digitalWrite STATUS_LED_PIN false) = false)
    (h2 : p (Event.delayMs 150) = false)
    (h3 : p (Event.digitalWrite STATUS_LED_PIN true) = false)
    (h4 : p (Event.delayMs 2000) = false) :
    ∀ n, (haltLoopTrace n).countP p = 0
  | 0 => rfl
  | n + 1 => by
    simp [haltLoopTrace, List.countP_append, List.countP_cons, h4,
      blinkError_countP_eq_zero p h1 h2 h3,
      haltLoopTrace_countP_eq_zero p h1 h2 h3 h4 n]

theorem haltLoopTrace_status_count (n : Nat) :
    (haltLoopTrace n).countP isStatusWrite = 6 * n := by
  induction n with
  | zero => rfl
  | succ k ih =>
    simp [haltLoopTrace, List.countP_append, List.countP_cons,
      blinkError_status_count, isStatusWrite, ih]
    omega

theorem sendToServer_no_acquire (env : CamEnv) (d : List Nat) (n : Nat) :
    (sendToServer env d n).1.countP isAcquire = 0 := by
  simp only [sendToServer]
  split_ifs <;> rfl

theorem sendToServer_no_release (env : CamEnv) (d : List Nat) (n : Nat) :
    (sendToServer env d n).1.countP isRelease = 0 := by
  simp only [sendToServer]
  split_ifs <;> rfl

theorem sendToServer_foldl_flash (env : CamEnv) (d : List Nat) (n : Nat) (s : Bool) :
    ((sendToServer env d n).1).foldl flashStep s = s := by
  simp only [sendToServer]
  split_ifs <;> rfl

theorem blinkError_foldl_flash : ∀ (n : Nat) (s : Bool),
    (blinkError n).foldl flashStep s = s
  | 0, _ => rfl
  | n + 1, s => by
    simp [blinkError, List.foldl_append, flashStep, STATUS_LED_PIN, FLASH_LED_PIN,
      blinkError_foldl_flash n]

theorem flashLED_two_foldl_flash (s : Bool) :
    (flashLED 2 100).foldl flashStep s = false := by
  cases s <;> rfl

theorem flashLED_two_no_acquire : (flashLED 2 100).countP isAcquire = 0 := rfl

theorem flashLED_two_no_release : (flashLED 2 100).countP isRelease = 0 := rfl

/-- C1: in every invocation of `captureAndSend`, for every environment
(sensor failure on either acquisition, size-limit rejection, allocation
failure inside `sendToServer`, transport failure, and success), the number
of frame-buffer acquisitions that return a frame equals the number of
`esp_camera_fb_return` releases in the trace. -/
theorem captureAndSend_acquire_release_balanced (env : CamEnv) :
    (captureAndSend env).1.countP isAcquire
      = (captureAndSend env).1.countP isRelease := by
  rcases env with ⟨fb1, fb2, allocOk, httpCode, respBody, respParsed⟩
  cases fb1 <;> cases fb2 <;>
    simp only [captureAndSend] <;>
    (try split_ifs) <;>
    simp [List.countP_append, List.countP_cons, isAcquire, isRelease,
      blinkError_no_acquire, blinkError_no_release,
      sendToServer_no_acquire, sendToServer_no_release,
      flashLED_two_no_acquire, flashLED_two_no_release]

/-- C10: the flash LED is off when `captureAndSend` returns, on every exit
path (second-acquisition sensor failure, size-limit rejection, upload
failure, success), whatever its state on entry. -/
theorem captureAndSend_flash_off (init : Bool) (env : CamEnv) :
    flashStateAfter init (captureAndSend env).1 = false := by
  rcases env with ⟨fb1, fb2, allocOk, httpCode, respBody, respParsed⟩
  cases fb1 <;> cases fb2 <;>
    simp only [captureAndSend, flashStateAfter] <;>
    (try split_ifs) <;>
    simp [List.foldl_append, flashStep, FLASH_LED_PIN, STATUS_LED_PIN,
      blinkError_foldl_flash, sendToServer_foldl_flash, flashLED_two_foldl_flash]

/-- C3: every invocation of `captureAndSend` begins with exactly this
sequence: flash on, the fixed 150 ms warm-up delay, a first acquisition
which is immediately released when it returned a frame (stale-frame
discard), the second acquisition (the captured output), and flash off —
before anything else (size validation, encoding, upload) happens. -/
theorem captureAndSend_sequence (env : CamEnv) :
    ∃ rest, (captureAndSend env).1 =
      [Event.digitalWrite FLASH_LED_PIN true, Event.delayMs FLASH_WARMUP_MS,
       Event.fbGet env.fb1.isSome] ++
      (if env.fb1.isSome then [Event.fbReturn] else []) ++
      [Event.fbGet env.fb2.isSome, Event.digitalWrite FLASH_LED_PIN false] ++
      rest := by
  rcases env with ⟨fb1, fb2, allocOk, httpCode, respBody, respParsed⟩
  cases fb1 <;> cases fb2 <;>
    simp only [captureAndSend, Option.isSome_none, Option.isSome_some,
      Bool.false_eq_true, if_false, if_true, List.nil_append] <;>
    (try split_ifs) <;>
    exact ⟨_, rfl⟩

/-- C2: whenever the second acquisition returns a frame longer than
1,000,000 bytes, `captureAndSend` takes the size-limit exit: the invocation
ends with outcome `sizeLimitExceeded`, `sendToServer` is never invoked (no
`sendCall`, no allocation-free encoding, no POST, no parse), and the frame
is still released (acquisitions equal releases). -/
theorem captureAndSend_size_limit (env : CamEnv) (fb : Frame)
    (hfb : env.fb2 = some fb) (hlen : fb.len > 1000000) :
    (captureAndSend env).2 = Outcome.sizeLimitExceeded ∧
    (captureAndSend env).1.countP isSendCall = 0 ∧
    (captureAndSend env).1.countP isHttpPost = 0 ∧
    (captureAndSend env).1.countP isParseEvt = 0 ∧
    (captureAndSend env).1.countP isAcquire
      = (captureAndSend env).1.countP isRelease := by
  rcases env with ⟨fb1, fb2, allocOk, httpCode, respBody, respParsed⟩
  cases fb2 with
  | none => simp at hfb
  | some fb2v =>
    cases hfb
    cases fb1 <;>
      simp [captureAndSend, hlen, List.countP_append, List.countP_cons,
        isSendCall, isHttpPost, isParseEvt, isAcquire, isRelease,
        blinkError_no_sendCall, blinkError_no_httpPost, blinkError_no_parse,
        blinkError_no_acquire, blinkError_no_release]

/-- Witness for C2 at a concrete 1,000,001-byte frame. -/
theorem captureAndSend_size_limit_witness :
    fbBig.len > 1000000 ∧
    ((captureAndSend envSize).2 = Outcome.sizeLimitExceeded ∧
     (captureAndSend envSize).1.countP isSendCall = 0 ∧
     (captureAndSend envSize).1.countP isHttpPost = 0 ∧
     (captureAndSend envSize).1.countP isParseEvt = 0 ∧
     (captureAndSend envSize).1.countP isAcquire
       = (captureAndSend envSize).1.countP isRelease) :=
  ⟨by decide, captureAndSend_size_limit envSize fbBig rfl (by decide)⟩

/-! ## Multipart body: exact-fit memcpy lemma -/

theorem memcpy_fill (dst pre mid suf src : List Nat) (off k : Nat)
    (hdst : dst = pre ++ (mid ++ suf)) (hoff : off = pre.length)
    (hk : k = src.length) (hmid : mid.length = src.length) :
    memcpy dst off src k = pre ++ (src ++ suf) := by
  subst hdst
  subst hoff
  subst hk
  unfold memcpy
  rw [List.take_left, List.take_length, List.drop_append, ← hmid, List.drop_left,
    List.append_assoc]

/-- C4: for every image byte list, the assembled multipart body is exactly
header ++ image ++ footer: the image bytes appear verbatim between header
and footer, and the total length is exactly the sum of the three section
lengths, with no padding. -/
theorem assembleBody_exact (imageData : List Nat) :
    assembleBody imageData imageData.length
      = bodyStartBytes ++ (imageData ++ bodyEndBytes) ∧
    (assembleBody imageData imageData.length).length
      = bodyStartBytes.length + imageData.length + bodyEndBytes.length := by
  have h1 : memcpy
      (List.replicate (bodyStartBytes.length + imageData.length + bodyEndBytes.length) 0)
      0 bodyStartBytes bodyStartBytes.length
      = bodyStartBytes ++
        (List.replicate imageData.length 0 ++ List.replicate bodyEndBytes.length 0) := by
    refine memcpy_fill _ [] (List.replicate bodyStartBytes.length 0)
      (List.replicate imageData.length 0 ++ List.replicate bodyEndBytes.length 0)
      bodyStartBytes 0 bodyStartBytes.length ?_ rfl rfl ?_ |>.trans ?_
    · rw [List.nil_append, ← List.replicate_add, ← List.replicate_add, Nat.add_assoc]
    · simp
    · simp
  have h2 : memcpy
      (bodyStartBytes ++
        (List.replicate imageData.length 0 ++ List.replicate bodyEndBytes.length 0))
      bodyStartBytes.length imageData imageData.length
      = bodyStartBytes ++ (imageData ++ List.replicate bodyEndBytes.length 0) := by
    refine memcpy_fill _ bodyStartBytes (List.replicate imageData.length 0)
      (List.replicate bodyEndBytes.length 0) imageData
      bodyStartBytes.length imageData.length rfl rfl rfl ?_
    simp
  have h3 : memcpy
      (bodyStartBytes ++ (imageData ++ List.replicate bodyEndBytes.length 0))
      (bodyStartBytes.length + imageData.length) bodyEndBytes bodyEndBytes.length
      = bodyStartBytes ++ (imageData ++ (bodyEndBytes ++ [])) := by
    refine memcpy_fill _ (bodyStartBytes ++ imageData)
      (List.replicate bodyEndBytes.length 0) [] bodyEndBytes
      (bodyStartBytes.length + imageData.length) bodyEndBytes.length ?_ ?_ rfl ?_ |>.trans ?_
    · simp
    · simp
    · simp
    · simp
  have hmain : assembleBody imageData imageData.length
      = bodyStartBytes ++ (imageData ++ bodyEndBytes) := by
    simp only [assembleBody]
    rw [h1, h2, h3]
    simp
  refine ⟨hmain, ?_⟩
  rw [hmain]
  simp [Nat.add_assoc]

theorem parseResponse_success_eq (response : String) (doc : Json)
    (h : (Json.get doc "success").orBool false = true) :
    parseResponse response (some doc) = ParseOutcome.detection
      { label := ((Json.get doc "detection").get "label").orStr "Unknown"
        category := ((Json.get doc "detection").get "category").orStr "Unknown"
        minPrice := ((Json.get doc "detection").get "minPrice").orInt 0
        maxPrice := ((Json.get doc "detection").get "maxPrice").orInt 0
        confidence := ((Json.get doc "detection").get "confidence").orInt 0 } := by
  simp [parseResponse, h]

/-- C5: `parseResponse` (i) yields `parseFailure` carrying the raw text when
structural parsing fails, (ii) yields `serverError` carrying the server's
error message whenever the top-level success flag is false or absent (its
`orBool false` coercion is `false`), with "Unknown" as the message when the
error field is absent, and (iii) when success is true yields a detection
record reading each field through an explicit default ("Unknown", "Unknown",
0, 0, 0), never failing on a missing field. -/
theorem parseResponse_cases :
    (∀ response, parseResponse response none = ParseOutcome.parseFailure response) ∧
    (∀ response doc, (Json.get doc "success").orBool false = false →
      parseResponse response (some doc)
        = ParseOutcome.serverError ((Json.get doc "error").orStr "Unknown")) ∧
    (∀ response doc, (Json.get doc "success").orBool false = false →
      Json.get doc "error" = Json.null →
      parseResponse response (some doc) = ParseOutcome.serverError "Unknown") ∧
    (∀ response doc, (Json.get doc "success").orBool false = true →
      parseResponse response (some doc) = ParseOutcome.detection
        { label := ((Json.get doc "detection").get "label").orStr "Unknown"
          category := ((Json.get doc "detection").get "category").orStr "Unknown"
          minPrice := ((Json.get doc "detection").get "minPrice").orInt 0
          maxPrice := ((Json.get doc "detection").get "maxPrice").orInt 0
          confidence := ((Json.get doc "detection").get "confidence").orInt 0 }) := by
  refine ⟨fun response => rfl, ?_, ?_, ?_⟩
  · intro response doc h
    simp [parseResponse, h]
  · intro response doc h herr
    simp [parseResponse, h, herr, Json.orStr]
  · intro response doc h
    exact parseResponse_success_eq response doc h

/-- Witness for C5 at a malformed response, a failure response with no
error field, and a success response with a partially filled detection. -/
theorem parseResponse_cases_witness :
    parseResponse "garbage" none = ParseOutcome.parseFailure "garbage" ∧
    (Json.get docFalse "success").orBool false = false ∧
    Json.get docFalse "error" = Json.null ∧
    parseResponse "r" (some docFalse) = ParseOutcome.serverError "Unknown" ∧
    (Json.get docTrue "success").orBool false = true ∧
    parseResponse "r" (some docTrue)
      = ParseOutcome.detection ⟨"Mug", "Unknown", 5, 0, 0⟩ :=
  ⟨parseResponse_cases.1 "garbage", rfl, rfl,
   parseResponse_cases.2.2.1 "r" docFalse rfl rfl, rfl,
   parseResponse_cases.2.2.2 "r" docTrue rfl⟩

/-- C9: a well-formed response whose success flag is true but whose
`detection` object is entirely absent still parses to the all-default
detection record rather than failing. -/
theorem parseResponse_missing_detection (response : String) (doc : Json)
    (hs : (Json.get doc "success").orBool false = true)
    (hd : Json.get doc "detection" = Json.null) :
    parseResponse response (some doc)
      = ParseOutcome.detection ⟨"Unknown", "Unknown", 0, 0, 0⟩ := by
  rw [parseResponse_success_eq response doc hs, hd]
  rfl

/-- Witness for C9 at a response holding only the success flag. -/
theorem parseResponse_missing_detection_witness :
    (Json.get docSuccessOnly "success").orBool false = true ∧
    Json.get docSuccessOnly "detection" = Json.null ∧
    parseResponse "ok" (some docSuccessOnly)
      = ParseOutcome.detection ⟨"Unknown", "Unknown", 0, 0, 0⟩ :=
  ⟨rfl, rfl, parseResponse_missing_detection "ok" docSuccessOnly rfl rfl⟩

/-- C6: whenever the HTTP request completes with a status other than 200,
`sendToServer` returns failure but logs the response body together with the
status as a server-supplied error payload (`httpLogServer`), while a
connection/timeout failure (non-positive code) is logged through the
distinct `httpLogTransport` event — the two cases are distinguishable in
the trace. -/
theorem sendToServer_non200 (env : CamEnv) (imageData : List Nat) (imageLen : Nat)
    (halloc : env.allocOk = true) (hne : env.httpCode ≠ 200) :
    (sendToServer env imageData imageLen).2 = false ∧
    (0 < env.httpCode →
      (sendToServer env imageData imageLen).1 =
        [Event.sendCall imageLen, Event.alloc true,
         Event.httpPost (assembleBody imageData imageLen)
           (bodyStartBytes.length + imageLen + bodyEndBytes.length),
         Event.httpLogServer env.httpCode env.respBody]) ∧
    (¬ 0 < env.httpCode →
      (sendToServer env imageData imageLen).1 =
        [Event.sendCall imageLen, Event.alloc true,
         Event.httpPost (assembleBody imageData imageLen)
           (bodyStartBytes.length + imageLen + bodyEndBytes.length),
         Event.httpLogTransport env.httpCode]) := by
  refine ⟨?_, ?_, ?_⟩
  · simp only [sendToServer, halloc, if_true]
    split_ifs with h1 h2 <;> simp_all
  · intro hpos
    simp [sendToServer, halloc, hne, hpos]
  · intro hneg
    simp [sendToServer, halloc, hne, hneg]

/-- Witness for C6 at a completed HTTP 404 response. -/
theorem sendToServer_non200_witness :
    env404.allocOk = true ∧ env404.httpCode ≠ 200 ∧ (0:Int) < env404.httpCode ∧
    (sendToServer env404 [] 0).2 = false ∧
    (sendToServer env404 [] 0).1 =
      [Event.sendCall 0, Event.alloc true,
       Event.httpPost (assembleBody [] 0)
         (bodyStartBytes.length + 0 + bodyEndBytes.length),
       Event.httpLogServer 404 "Not Found"] :=
  ⟨rfl, by decide, by decide,
   (sendToServer_non200 env404 [] 0 rfl (by decide)).1,
   (sendToServer_non200 env404 [] 0 rfl (by decide)).2.1 (by decide)⟩

/-- C7 counterexample: at a concrete triggered iteration (button pressed,
debounce elapsed, WiFi connected) the claim "frame acquisition precedes the
connectivity check" is false for the reference `loop`: the very first event
of the triggered invocation is the connectivity check, and every
`esp_camera_fb_get` comes after it. -/
theorem loop_capture_before_check_counterexample :
    triggered cLoopEnv = true ∧ ¬ acquisitionPrecedesCheck (loopTrace cLoopEnv) := by
  constructor
  · decide
  · unfold acquisitionPrecedesCheck
    decide

/-- C7 amended: for every trigger event, the reference `loop` checks
network connectivity first — the connectivity check is the very first
observable action of a triggered invocation, so it precedes any frame
acquisition — and when the device is still disconnected after the
reconnection attempt, no frame is acquired at all. -/
theorem loop_checks_connectivity_first (env : LoopEnv)
    (h : triggered env = true) :
    (∃ rest, loopTrace env = Event.wifiCheck env.wifi1 :: rest) ∧
    (env.wifi2 = false → (loopTrace env).countP isFbGet = 0) := by
  constructor
  · simp only [loopTrace, h, if_true]
    exact ⟨_, rfl⟩
  · intro h2
    cases hw : env.wifi1 <;>
      simp [loopTrace, h, h2, hw, List.countP_append, List.countP_cons,
        isFbGet, blinkError_no_fbGet]

/-- Witness for the amended C7 at the concrete triggered iteration. -/
theorem loop_checks_connectivity_first_witness :
    triggered cLoopEnv = true ∧
    (∃ rest, loopTrace cLoopEnv = Event.wifiCheck true :: rest) :=
  ⟨rfl, (loop_checks_connectivity_first cLoopEnv rfl).1⟩

/-! ## C8: initialization failure halts the device -/

/-- C8: when `initCamera` fails at startup, the whole device trace — for
any observation horizon — is the repeating visible halt signal: `loop`
never runs, so no frame acquisition, no upload, no `sendToServer` call and
no trigger handling (connectivity check) ever occurs, while the status-LED
keeps blinking (6 writes per halt iteration, forever). -/
theorem deviceTrace_init_failure (loopEnvs : List LoopEnv) :
    deviceTrace false loopEnvs =
      [Event.digitalWrite FLASH_LED_PIN false,
       Event.digitalWrite STATUS_LED_PIN true] ++
      haltLoopTrace loopEnvs.length ∧
    (deviceTrace false loopEnvs).countP isFbGet = 0 ∧
    (deviceTrace false loopEnvs).countP isHttpPost = 0 ∧
    (deviceTrace false loopEnvs).countP isSendCall = 0 ∧
    (deviceTrace false loopEnvs).countP isWifiCheck = 0 ∧
    (haltLoopTrace loopEnvs.length).countP isStatusWrite
      = 6 * loopEnvs.length := by
  have hfb : (haltLoopTrace loopEnvs.length).countP isFbGet = 0 :=
    haltLoopTrace_countP_eq_zero isFbGet rfl rfl rfl rfl _
  have hpost : (haltLoopTrace loopEnvs.length).countP isHttpPost = 0 :=
    haltLoopTrace_countP_eq_zero isHttpPost rfl rfl rfl rfl _
  have hsend : (haltLoopTrace loopEnvs.length).countP isSendCall = 0 :=
    haltLoopTrace_countP_eq_zero isSendCall rfl rfl rfl rfl _
  have hwifi : (haltLoopTrace loopEnvs.length).countP isWifiCheck = 0 :=
    haltLoopTrace_countP_eq_zero isWifiCheck rfl rfl rfl rfl _
  refine ⟨rfl, ?_, ?_, ?_, ?_, haltLoopTrace_status_count _⟩ <;>
    simp [deviceTrace, List.countP_append, List.countP_cons,
      isFbGet, isHttpPost, isSendCall, isWifiCheck, hfb, hpost, hsend, hwifi]

end BumpBox
